import Mathlib

/-
Verification of the CarBuddy maintenance backend.

This file gives a shallow embedding of the maintenance-status logic of the
repository (backend/app/agents/autonomous_maintenance_agent.py and
backend/app/agents/maintenance_agent.py, with the data model from
backend/app/models/user.py) and proves properties of it.

Modeling conventions:
- Python ints are arbitrary precision and are embedded as `Int`.
- Timestamps are embedded at day granularity as `Int` (days since an
  arbitrary epoch); `(a - b).days` on two such timestamps is plain
  subtraction.
- Python floats are embedded as exact rationals `ℚ`; the float literal
  `0.8` is embedded as `4/5` and true division `/ 30` as rational
  division.  All float comparisons in the source are between quantities
  whose exact and floating evaluations agree at the comparison
  boundaries used here.
- Python dicts whose keys are looked up with `.get(key, default)` are
  embedded as functions into `Option` (for the rules catalog, whose
  entries are themselves dicts with possibly-missing keys, embedded as a
  structure of `Option` fields) or as association lists (for the
  catalogs iterated in insertion order).
- `datetime.now()` / `datetime.utcnow()` read inside a function body is
  embedded as an explicit `nowDays` argument holding the value the
  ambient clock produced at the moment of the call.
- Exceptions in the orchestration loop are embedded by an explicit
  failure flag (see `analyze_user_cars` below).
-/

/-- A car row (backend/app/models/user.py, class `Car`); only the fields read
by the agents are kept. -/
structure Car where
  id : Int
  user_id : Int
  make : String
  model : String
  year : Int
  current_mileage : Int
deriving Repr, DecidableEq

/-- A maintenance-record row (backend/app/models/user.py, class
`MaintenanceRecord`); only the fields read by the agents are kept.
`date_performed` is in days. -/
structure MaintenanceRecord where
  id : Int
  service_type : String
  date_performed : Int
  mileage_at_service : Int
  cost : ℚ
deriving Repr, DecidableEq

/-- One entry of `AutonomousMaintenanceAgent.maintenance_rules`: a Python
dict with possibly-missing keys, read via `rules.get(key, default)`. -/
structure Rules where
  mileage_interval : Option Int
  time_interval_months : Option Int
  priority : Option Int
  safety_critical : Option Bool
deriving Repr, DecidableEq

/-- The result dict of
`AutonomousMaintenanceAgent._calculate_service_status`.  The two branches
of the source return dicts with different key sets; a key absent from the
returned dict is `none` here.  (`miles_overdue` is the key used by the
no-record branch; `overdue_miles` the one used by the branch with a
record.) -/
structure ServiceStatus where
  status : String
  reason : Option String := none
  miles_overdue : Option Int := none
  miles_since : Option Int := none
  months_since : Option ℚ := none
  overdue_miles : Option Int := none
  overdue_months : Option ℚ := none
  priority : Int
deriving Repr, DecidableEq

/-- `rules.get(key, default)` where `rules` is either a catalog entry or
the empty dict `{}` produced by `maintenance_rules.get(service_type, {})`. -/
def getRule (rules : Option Rules) (key : Rules → Option Int) (default : Int) : Int :=
  ((rules.bind key).getD default)

/-- The literal `maintenance_rules` dict installed by
`AutonomousMaintenanceAgent.__init__`. -/
def maintenance_rules : String → Option Rules := fun service_type =>
  if service_type = "oil_change" then
    some { mileage_interval := some 5000, time_interval_months := some 6,
           priority := some 10, safety_critical := some true }
  else if service_type = "brake_inspection" then
    some { mileage_interval := some 12000, time_interval_months := some 12,
           priority := some 9, safety_critical := some true }
  else if service_type = "tire_rotation" then
    some { mileage_interval := some 7500, time_interval_months := some 6,
           priority := some 6, safety_critical := some false }
  else none

/-- Embedding of `AutonomousMaintenanceAgent._calculate_service_status`.
The rules catalog is the instance attribute `self.maintenance_rules`,
passed here as the first argument (with `maintenance_rules` above being
the value installed by `__init__`); `nowDays` is the value the
`datetime.now()` call on the `days_since` line reads from the ambient
clock. -/
def calculate_service_status (rulesMap : String → Option Rules) (car : Car)
    (last_service : Option MaintenanceRecord) (service_type : String)
    (nowDays : Int) : ServiceStatus :=
  let rules : Option Rules := rulesMap service_type
  match last_service with
  | none =>
      { status := "overdue"
        reason := some ("No record of " ++ service_type)
        miles_overdue := some car.current_mileage
        priority := getRule rules Rules.priority 5 }
  | some last =>
      let miles_since : Int := car.current_mileage - last.mileage_at_service
      let days_since : Int := nowDays - last.date_performed
      let months_since : ℚ := (days_since : ℚ) / 30
      let mile_interval : Int := getRule rules Rules.mileage_interval 10000
      let time_interval : Int := getRule rules Rules.time_interval_months 12
      let overdue_miles : Int := miles_since - mile_interval
      let overdue_months : ℚ := months_since - (time_interval : ℚ)
      let status : String :=
        if overdue_miles > 0 ∨ overdue_months > 0 then "overdue"
        else if (miles_since : ℚ) > (mile_interval : ℚ) * (4/5)
            ∨ months_since > (time_interval : ℚ) * (4/5) then "due_soon"
        else "current"
      { status := status
        miles_since := some miles_since
        months_since := some months_since
        overdue_miles := some (max 0 overdue_miles)
        overdue_months := some (max 0 overdue_months)
        priority := getRule rules Rules.priority 5 }

/-- Embedding of `AutonomousMaintenanceAgent._find_last_service`:
`max(services, key=lambda x: x.date_performed) if services else None`,
where `services` filters the history by service type.  Python `max` with
a key scans left to right and replaces the running maximum only on a
strictly greater key, so it returns the first record attaining the
maximal `date_performed`. -/
def find_last_service (maintenance_history : List MaintenanceRecord)
    (service_type : String) : Option MaintenanceRecord :=
  let services := maintenance_history.filter
    (fun record => record.service_type == service_type)
  match services with
  | [] => none
  | x :: xs => some (xs.foldl
      (fun best record =>
        if best.date_performed < record.date_performed then record else best) x)

/-- A concrete vehicle used by the examples in this file. -/
def exampleCar : Car :=
  { id := 1, user_id := 1, make := "Honda", model := "Civic", year := 2020,
    current_mileage := 14000 }

/-- A concrete oil-change record used by the examples in this file. -/
def exampleOilRecord : MaintenanceRecord :=
  { id := 1, service_type := "oil_change", date_performed := 0,
    mileage_at_service := 10000, cost := 40 }

/-- C2: with no prior record of the service type, the evaluator reports
status `overdue`, sets the overdue-miles field (`miles_overdue`) to the
vehicle's entire current mileage, and the reason string
`No record of <service_type>`, for every vehicle (including one with
mileage 0) and every rules catalog. -/
theorem no_record_always_overdue (rulesMap : String → Option Rules) (car : Car)
    (service_type : String) (nowDays : Int) :
    (calculate_service_status rulesMap car none service_type nowDays).status = "overdue"
    ∧ (calculate_service_status rulesMap car none service_type nowDays).miles_overdue
        = some car.current_mileage
    ∧ (calculate_service_status rulesMap car none service_type nowDays).reason
        = some ("No record of " ++ service_type) := by
  exact ⟨rfl, rfl, rfl⟩

/-- C1: with a last-service record present, the evaluator assigns status by
this precedence with strict comparisons (intervals resolved with the source
defaults 10000 miles and 12 months): `overdue` iff `miles_since >
mileage_interval` or `months_since > time_interval_months`; otherwise
`due_soon` iff `miles_since > 0.8 · mileage_interval` or `months_since >
0.8 · time_interval_months`; otherwise `current`.  In particular, with the
installed catalog's oil-change entry (mileage_interval 5000), miles_since =
4000 and no time trigger, the status is `current` because 4000 is not
strictly greater than 4000. -/
theorem status_precedence_strict (rulesMap : String → Option Rules) (car : Car)
    (last : MaintenanceRecord) (service_type : String) (nowDays : Int) :
    ((calculate_service_status rulesMap car (some last) service_type nowDays).status
        = (if car.current_mileage - last.mileage_at_service
              > getRule (rulesMap service_type) Rules.mileage_interval 10000
            ∨ ((nowDays - last.date_performed : Int) : ℚ) / 30
              > (getRule (rulesMap service_type) Rules.time_interval_months 12 : ℚ)
           then "overdue"
           else if ((car.current_mileage - last.mileage_at_service : Int) : ℚ)
              > (getRule (rulesMap service_type) Rules.mileage_interval 10000 : ℚ) * (4/5)
            ∨ ((nowDays - last.date_performed : Int) : ℚ) / 30
              > (getRule (rulesMap service_type) Rules.time_interval_months 12 : ℚ) * (4/5)
           then "due_soon" else "current"))
    ∧ (calculate_service_status maintenance_rules exampleCar (some exampleOilRecord)
        ("oil_change") 0).status = "current" := by
  constructor
  · simp only [calculate_service_status, gt_iff_lt, sub_pos]
  · norm_num [calculate_service_status, maintenance_rules, getRule, exampleCar,
      exampleOilRecord]

/-- A concrete vehicle at 15500 miles, for the overdue example. -/
def exampleCar15500 : Car :=
  { id := 1, user_id := 1, make := "Honda", model := "Civic", year := 2020,
    current_mileage := 15500 }

/-- C3: with a last-service record present, the evaluator returns
`overdue_miles = max(0, miles_since - mileage_interval)` and
`overdue_months = max(0, months_since - time_interval_months)` (intervals
resolved with the source defaults), so both returned fields are
non-negative; and with mileage_interval 5000, last service at mileage
10000 and current mileage 15500, `overdue_miles = 500`. -/
theorem overdue_magnitudes_clamped (rulesMap : String → Option Rules) (car : Car)
    (last : MaintenanceRecord) (service_type : String) (nowDays : Int) :
    ((calculate_service_status rulesMap car (some last) service_type nowDays).overdue_miles
        = some (max 0 (car.current_mileage - last.mileage_at_service
            - getRule (rulesMap service_type) Rules.mileage_interval 10000)))
    ∧ ((calculate_service_status rulesMap car (some last) service_type nowDays).overdue_months
        = some (max 0 (((nowDays - last.date_performed : Int) : ℚ) / 30
            - (getRule (rulesMap service_type) Rules.time_interval_months 12 : ℚ))))
    ∧ (∀ m : Int,
        (calculate_service_status rulesMap car (some last) service_type nowDays).overdue_miles
          = some m → 0 ≤ m)
    ∧ (∀ q : ℚ,
        (calculate_service_status rulesMap car (some last) service_type nowDays).overdue_months
          = some q → 0 ≤ q)
    ∧ (calculate_service_status maintenance_rules exampleCar15500
        (some exampleOilRecord) "oil_change" 0).overdue_miles = some 500 := by
  refine ⟨rfl, rfl, ?_, ?_, ?_⟩
  · intro m hm
    simp only [calculate_service_status, Option.some.injEq] at hm
    omega
  · intro q hq
    simp only [calculate_service_status, Option.some.injEq] at hq
    rw [← hq]
    exact le_max_left 0 _
  · norm_num [calculate_service_status, maintenance_rules, getRule,
      exampleCar15500, exampleOilRecord]

/-- Rank of a status string along the progression
`current < due_soon < overdue`. -/
def statusRank (status : String) : Nat :=
  if status = "current" then 0 else if status = "due_soon" then 1 else 2

/-- Helper: the rank of the evaluator's three-way if is monotone when both
branch conditions only become easier to satisfy. -/
theorem statusRank_ite_le {p1 q1 p2 q2 : Prop}
    [Decidable p1] [Decidable q1] [Decidable p2] [Decidable q2]
    (hp : p1 → p2) (hq : q1 → q2) :
    statusRank (if p1 then "overdue" else if q1 then "due_soon" else "current")
      ≤ statusRank (if p2 then "overdue" else if q2 then "due_soon" else "current") := by
  split_ifs <;> simp [statusRank] <;> tauto

/-- C4: the evaluator is monotone in mileage: two vehicle snapshots that
differ only in `current_mileage`, with the same last-service record (or
none), rules catalog, service type, and clock value, never move the status
backward along `current → due_soon → overdue` when the mileage grows. -/
theorem status_monotone_in_mileage (rulesMap : String → Option Rules)
    (i u : Int) (mk md : String) (y : Int) (m1 m2 : Int) (hm : m1 ≤ m2)
    (last : Option MaintenanceRecord) (service_type : String) (nowDays : Int) :
    statusRank (calculate_service_status rulesMap
        { id := i, user_id := u, make := mk, model := md, year := y,
          current_mileage := m1 } last service_type nowDays).status
      ≤ statusRank (calculate_service_status rulesMap
        { id := i, user_id := u, make := mk, model := md, year := y,
          current_mileage := m2 } last service_type nowDays).status := by
  cases last with
  | none => exact le_refl _
  | some last =>
    simp only [calculate_service_status]
    refine statusRank_ite_le ?_ ?_
    · rintro (h | h)
      · left; omega
      · exact Or.inr h
    · rintro (h | h)
      · refine Or.inl (lt_of_lt_of_le h ?_)
        exact_mod_cast Int.cast_le.mpr (by omega : m1 - last.mileage_at_service ≤ m2 - last.mileage_at_service)
      · exact Or.inr h

/-- Witness for `status_monotone_in_mileage` at a concrete pair of
mileages, 14000 ≤ 15500. -/
theorem status_monotone_in_mileage_witness :
    (14000 : Int) ≤ 15500
    ∧ statusRank (calculate_service_status maintenance_rules
        { id := 1, user_id := 1, make := "Honda", model := "Civic", year := 2020,
          current_mileage := 14000 } (some exampleOilRecord) "oil_change" 0).status
      ≤ statusRank (calculate_service_status maintenance_rules
        { id := 1, user_id := 1, make := "Honda", model := "Civic", year := 2020,
          current_mileage := 15500 } (some exampleOilRecord) "oil_change" 0).status :=
  ⟨by norm_num,
   status_monotone_in_mileage maintenance_rules 1 1 "Honda" "Civic" 2020 14000 15500
     (by norm_num) (some exampleOilRecord) "oil_change" 0⟩

/-- Embedding of `MaintenanceAgent._get_last_service`; the body is the same
computation as `AutonomousMaintenanceAgent._find_last_service`. -/
def get_last_service (maintenance_history : List MaintenanceRecord)
    (service_type : String) : Option MaintenanceRecord :=
  let services := maintenance_history.filter
    (fun record => record.service_type == service_type)
  match services with
  | [] => none
  | x :: xs => some (xs.foldl
      (fun best record =>
        if best.date_performed < record.date_performed then record else best) x)

/-- Helper: the running maximum scanned by `find_last_service` is one of the
scanned records. -/
theorem foldl_latest_mem (xs : List MaintenanceRecord) (x : MaintenanceRecord) :
    xs.foldl (fun best record =>
        if best.date_performed < record.date_performed then record else best) x
      ∈ x :: xs := by
  induction xs generalizing x with
  | nil => exact List.mem_singleton.mpr rfl
  | cons a as ih =>
    simp only [List.foldl_cons]
    rcases List.mem_cons.mp
        (ih (if x.date_performed < a.date_performed then a else x)) with h | h
    · rw [h]
      split_ifs
      · exact List.mem_cons_of_mem x (List.mem_cons_self a as)
      · exact List.mem_cons_self x _
    · exact List.mem_cons_of_mem x (List.mem_cons_of_mem a h)

/-- Helper: the running maximum scanned by `find_last_service` has a
`date_performed` at least that of every scanned record. -/
theorem foldl_latest_ge (xs : List MaintenanceRecord) (x y : MaintenanceRecord)
    (hy : y ∈ x :: xs) :
    y.date_performed ≤ (xs.foldl (fun best record =>
        if best.date_performed < record.date_performed then record else best)
        x).date_performed := by
  induction xs generalizing x y with
  | nil =>
    simp only [List.foldl_nil]
    rw [List.mem_singleton.mp hy]
  | cons a as ih =>
    simp only [List.foldl_cons]
    have hx : x.date_performed
        ≤ (if x.date_performed < a.date_performed then a else x).date_performed := by
      split_ifs <;> omega
    have ha : a.date_performed
        ≤ (if x.date_performed < a.date_performed then a else x).date_performed := by
      split_ifs <;> omega
    have hhead := ih (if x.date_performed < a.date_performed then a else x)
      (if x.date_performed < a.date_performed then a else x)
      (List.mem_cons_self _ _)
    rcases List.mem_cons.mp hy with h | h
    · rw [h]
      exact le_trans hx hhead
    · rcases List.mem_cons.mp h with h' | h'
      · rw [h']
        exact le_trans ha hhead
      · exact ih _ y (List.mem_cons_of_mem _ h')

/-- C8: `_find_last_service` returns `none` exactly when no record in the
history has the requested service type; otherwise it returns a matching
record from the history whose `date_performed` is maximal among the
matches (determinism is immediate since it is a function; on ties it keeps
the earliest-listed maximal record).  `MaintenanceAgent._get_last_service`
computes the same function. -/
theorem find_last_service_spec (history : List MaintenanceRecord) (st : String) :
    (find_last_service history st = none ↔ ∀ r ∈ history, r.service_type ≠ st)
    ∧ (∀ r, find_last_service history st = some r →
        r ∈ history ∧ r.service_type = st
          ∧ ∀ r' ∈ history, r'.service_type = st →
              r'.date_performed ≤ r.date_performed)
    ∧ get_last_service history st = find_last_service history st := by
  refine ⟨?_, ?_, rfl⟩
  · constructor
    · intro h r hr hrt
      simp only [find_last_service] at h
      cases hf : history.filter (fun record => record.service_type == st) with
      | nil =>
        have hmem : r ∈ history.filter (fun record => record.service_type == st) :=
          List.mem_filter.mpr ⟨hr, by simp [hrt]⟩
        rw [hf] at hmem
        simp at hmem
      | cons x xs =>
        rw [hf] at h
        simp at h
    · intro hall
      simp only [find_last_service]
      have hf : history.filter (fun record => record.service_type == st) = [] := by
        rw [List.filter_eq_nil_iff]
        intro a ha
        simp [hall a ha]
      rw [hf]
  · intro r hr
    simp only [find_last_service] at hr
    cases hf : history.filter (fun record => record.service_type == st) with
    | nil =>
      rw [hf] at hr
      simp at hr
    | cons x xs =>
      rw [hf] at hr
      simp only [Option.some.injEq] at hr
      subst hr
      have hmem : (xs.foldl (fun best record =>
          if best.date_performed < record.date_performed then record else best) x)
          ∈ x :: xs := foldl_latest_mem xs x
      rw [← hf] at hmem
      refine ⟨List.mem_of_mem_filter hmem, ?_, ?_⟩
      · have := List.of_mem_filter hmem
        simpa using this
      · intro r' hr' hrt'
        have hr'f : r' ∈ history.filter (fun record => record.service_type == st) :=
          List.mem_filter.mpr ⟨hr', by simp [hrt']⟩
      
        rw [hf] at hr'f
        exact foldl_latest_ge xs x r' hr'f

/-- Witness for `find_last_service_spec`: on a concrete two-record history
the selected record is the matching one with maximal date. -/
theorem find_last_service_spec_witness :
    exampleOilRecord ∈ [exampleOilRecord] ∧ exampleOilRecord.service_type = "oil_change"
      ∧ ∀ r' ∈ [exampleOilRecord], r'.service_type = "oil_change" →
          r'.date_performed ≤ exampleOilRecord.date_performed :=
  (find_last_service_spec [exampleOilRecord] "oil_change").2.1 exampleOilRecord rfl

/-- A concrete vehicle at 10000 miles, for the clock-dependence example. -/
def clockCar : Car :=
  { id := 2, user_id := 1, make := "Toyota", model := "Camry", year := 2019,
    current_mileage := 10000 }

/-- A concrete oil-change record at mileage 8000 performed on day 0, for the
clock-dependence example. -/
def clockRecord : MaintenanceRecord :=
  { id := 2, service_type := "oil_change", date_performed := 0,
    mileage_at_service := 8000, cost := 45 }

/-- C6: the source evaluator reads `datetime.now()` internally (the
`days_since` line), so its result depends on the ambient clock and not only
on its explicit arguments.  Modeling that internal clock read as the
`nowDays` value it returns, the same explicit arguments (vehicle, record,
catalog, service type) yield `current` when the call happens 100 days after
the last service and `overdue` when it happens 400 days after. -/
theorem evaluator_depends_on_ambient_clock :
    (calculate_service_status maintenance_rules clockCar (some clockRecord)
        ("oil_change") 100).status = "current"
    ∧ (calculate_service_status maintenance_rules clockCar (some clockRecord)
        ("oil_change") 400).status = "overdue" := by
  constructor
  · norm_num [calculate_service_status, maintenance_rules, getRule, clockCar,
      clockRecord]
  · norm_num [calculate_service_status, maintenance_rules, getRule, clockCar,
      clockRecord]

/-- The `self.maintenance_intervals` dict installed by
`MaintenanceAgent.__init__`, in insertion order (Python dicts iterate in
insertion order). -/
def maintenance_intervals : List (String × Int) :=
  [("oil_change", 5000), ("tire_rotation", 7500), ("brake_inspection", 12000),
   ("air_filter", 15000), ("transmission_service", 30000)]

/-- The `self.time_intervals` dict installed by `MaintenanceAgent.__init__`. -/
def time_intervals : List (String × Int) :=
  [("oil_change", 6), ("brake_inspection", 12), ("air_filter", 12)]

/-- A cost range dict of `MaintenanceAgent._estimate_cost`. -/
structure CostEstimate where
  min : Int
  max : Int
deriving Repr, DecidableEq

/-- Embedding of `MaintenanceAgent._calculate_priority`: a lookup in the
literal priority map with default 5.  (The `car` and `last_service`
parameters of the source method are unused by its body.) -/
def calculate_priority (service_type : String) : Int :=
  (([("oil_change", 10), ("brake_inspection", 9), ("tire_rotation", 5),
     ("air_filter", 4), ("transmission_service", 7)] : List (String × Int)).lookup
    service_type).getD 5

/-- Embedding of `MaintenanceAgent._estimate_cost`: a lookup in the literal
cost table with default `{min: 50, max: 200}`.  (The `car` parameter of the
source method is unused by its body.) -/
def estimate_cost (service_type : String) : CostEstimate :=
  (([("oil_change", ⟨30, 80⟩), ("brake_inspection", ⟨100, 300⟩),
     ("tire_rotation", ⟨20, 50⟩), ("air_filter", ⟨15, 40⟩),
     ("transmission_service", ⟨150, 400⟩)] : List (String × CostEstimate)).lookup
    service_type).getD ⟨50, 200⟩

/-- One recommendation dict appended by `analyze_maintenance_needs`. -/
structure Recommendation where
  service_type : String
  reason : String
  priority : Int
  estimated_cost : CostEstimate
deriving Repr, DecidableEq

/-- Python `int(x)` on a float: truncation toward zero. -/
def pyInt (q : ℚ) : Int := if q < 0 then ⌈q⌉ else ⌊q⌋

/-- The loop body of `MaintenanceAgent.analyze_maintenance_needs` for one
`(service_type, mile_interval)` catalog item: the `needs_service` /
`reason` decision followed by the conditional append, returned as the
appended recommendation if any.  `nowDays` is the `current_date` the
source reads from `datetime.utcnow()` at the start of the call. -/
def check_service (car : Car) (maintenance_history : List MaintenanceRecord)
    (nowDays : Int) (service_type : String) (mile_interval : Int) :
    Option Recommendation :=
  match get_last_service maintenance_history service_type with
  | some last_service =>
      let miles_since_service : Int :=
        car.current_mileage - last_service.mileage_at_service
      let months_since_service : ℚ :=
        ((nowDays - last_service.date_performed : Int) : ℚ) / 30
      if miles_since_service ≥ mile_interval then
        some { service_type := service_type
               reason := toString miles_since_service
                 ++ " miles since last " ++ service_type
               priority := calculate_priority service_type
               estimated_cost := estimate_cost service_type }
      else
        match time_intervals.lookup service_type with
        | some t =>
            if months_since_service ≥ (t : ℚ) then
              some { service_type := service_type
                     reason := toString (pyInt months_since_service)
                       ++ " months since last " ++ service_type
                     priority := calculate_priority service_type
                     estimated_cost := estimate_cost service_type }
            else none
        | none => none
  | none =>
      some { service_type := service_type
             reason := "No record of " ++ service_type
             priority := calculate_priority service_type
             estimated_cost := estimate_cost service_type }

/-- The result dict of `analyze_maintenance_needs`. -/
structure AnalysisResult where
  car_id : Int
  analysis_date : Int
  recommendations : List Recommendation
deriving Repr, DecidableEq

/-- Embedding of `MaintenanceAgent.analyze_maintenance_needs`: iterate the
interval catalog in insertion order, collect the flagged items, and return
them sorted by priority descending.  Python `sorted(..., key=priority,
reverse=True)` is a stable sort, embedded as `List.mergeSort` with the
comparison `b.priority ≤ a.priority`. -/
def analyze_maintenance_needs (car : Car)
    (maintenance_history : List MaintenanceRecord) (nowDays : Int) :
    AnalysisResult :=
  { car_id := car.id
    analysis_date := nowDays
    recommendations :=
      (maintenance_intervals.filterMap
        (fun item =>
          check_service car maintenance_history nowDays item.1 item.2)).mergeSort
        (fun a b => b.priority ≤ a.priority) }

/-- C10: in `analyze_maintenance_needs` the mileage comparison is non-strict
(`>=`): when the miles driven since the last service of a catalog type
exactly equal that type's mile interval, a recommendation for that type is
included in the output. -/
theorem boundary_miles_equal_interval_flagged (car : Car)
    (history : List MaintenanceRecord) (nowDays : Int) (st : String)
    (mi : Int) (r : MaintenanceRecord)
    (hcat : (st, mi) ∈ maintenance_intervals)
    (hlast : get_last_service history st = some r)
    (heq : car.current_mileage - r.mileage_at_service = mi) :
    ∃ rec ∈ (analyze_maintenance_needs car history nowDays).recommendations,
      rec.service_type = st := by
  have hcheck : check_service car history nowDays st mi
      = some { service_type := st
               reason := toString (car.current_mileage - r.mileage_at_service)
                 ++ " miles since last " ++ st
               priority := calculate_priority st
               estimated_cost := estimate_cost st } := by
    simp only [check_service, hlast]
    rw [if_pos (by omega : car.current_mileage - r.mileage_at_service ≥ mi)]
  refine ⟨{ service_type := st
            reason := toString (car.current_mileage - r.mileage_at_service)
              ++ " miles since last " ++ st
            priority := calculate_priority st
            estimated_cost := estimate_cost st }, ?_, rfl⟩
  simp only [analyze_maintenance_needs]
  refine (List.mergeSort_perm _ _).mem_iff.mpr ?_
  exact List.mem_filterMap.mpr ⟨(st, mi), hcat, hcheck⟩

/-- Witness for `boundary_miles_equal_interval_flagged`: an oil change
exactly 5000 miles after the last one is flagged. -/
theorem boundary_miles_equal_interval_flagged_witness :
    ∃ rec ∈ (analyze_maintenance_needs
        { id := 1, user_id := 1, make := "Honda", model := "Civic", year := 2020,
          current_mileage := 15000 } [exampleOilRecord] 0).recommendations,
      rec.service_type = "oil_change" :=
  boundary_miles_equal_interval_flagged _ [exampleOilRecord] 0 "oil_change" 5000
    exampleOilRecord (by decide) rfl (by decide)

/-- Helper: the aggregator's sort comparison is transitive. -/
theorem recommendation_le_trans (a b c : Recommendation)
    (hab : (decide (b.priority ≤ a.priority)) = true)
    (hbc : (decide (c.priority ≤ b.priority)) = true) :
    (decide (c.priority ≤ a.priority)) = true := by
  simp only [decide_eq_true_eq] at *
  omega

/-- Helper: the aggregator's sort comparison is total. -/
theorem recommendation_le_total (a b : Recommendation) :
    ((decide (b.priority ≤ a.priority)) || (decide (a.priority ≤ b.priority)))
      = true := by
  simp only [Bool.or_eq_true, decide_eq_true_eq]
  omega

/-- Helper: the aggregator's sort is stable: within each priority class the
sorted list keeps exactly the input order (the catalog iteration order). -/
theorem mergeSort_filter_priority (l : List Recommendation) (p : Int) :
    ((l.mergeSort (fun a b => b.priority ≤ a.priority)).filter
        (fun rec => rec.priority == p))
      = l.filter (fun rec => rec.priority == p) := by
  have hpair : (l.filter (fun rec => rec.priority == p)).Pairwise
      (fun a b : Recommendation => (decide (b.priority ≤ a.priority)) = true) := by
    refine List.pairwise_of_forall_mem_list ?_
    intro a ha b hb
    have ha' := (List.mem_filter.mp ha).2
    have hb' := (List.mem_filter.mp hb).2
    simp only [beq_iff_eq] at ha' hb'
    simp [ha', hb']
  have hsub : (l.filter (fun rec => rec.priority == p)).Sublist
      (l.mergeSort (fun a b => b.priority ≤ a.priority)) :=
    List.sublist_mergeSort (fun a b c => recommendation_le_trans a b c)
      recommendation_le_total hpair (List.filter_sublist l)
  have hself : (l.filter (fun rec => rec.priority == p)).filter
      (fun rec => rec.priority == p) = l.filter (fun rec => rec.priority == p) :=
    List.filter_eq_self.mpr (fun a ha => (List.mem_filter.mp ha).2)
  have hsub2 : (l.filter (fun rec => rec.priority == p)).Sublist
      ((l.mergeSort (fun a b => b.priority ≤ a.priority)).filter
        (fun rec => rec.priority == p)) := by
    have h := hsub.filter (fun rec => rec.priority == p)
    rwa [hself] at h
  have hlen : ((l.mergeSort (fun a b => b.priority ≤ a.priority)).filter
      (fun rec => rec.priority == p)).length
        = (l.filter (fun rec => rec.priority == p)).length :=
    ((List.mergeSort_perm l _).filter (fun rec => rec.priority == p)).length_eq
  exact (hsub2.eq_of_length hlen.symm).symm

/-- Catalog item A of the ordering example: priority 10. -/
def flaggedA : Recommendation :=
  { service_type := "A", reason := "No record of A", priority := 10,
    estimated_cost := ⟨50, 200⟩ }

/-- Catalog item B of the ordering example: priority 9. -/
def flaggedB : Recommendation :=
  { service_type := "B", reason := "No record of B", priority := 9,
    estimated_cost := ⟨50, 200⟩ }

/-- Catalog item C of the ordering example: priority 6. -/
def flaggedC : Recommendation :=
  { service_type := "C", reason := "No record of C", priority := 6,
    estimated_cost := ⟨50, 200⟩ }

unseal List.merge List.mergeSort in
/-- C7: the aggregator returns its recommendations sorted by priority in
descending order; ties are broken stably, preserving the catalog iteration
(insertion) order — within each priority class the output keeps exactly the
order in which the catalog loop produced the items; sorting three flagged
items with priorities 10, 9, 6 (already in catalog order A, B, C) returns
[A, B, C]; and a full aggregator run with every catalog item flagged (empty
history) lists the five service types in descending priority order
10, 9, 7, 5, 4. -/
theorem recommendations_sorted_by_priority :
    (∀ (car : Car) (history : List MaintenanceRecord) (nowDays : Int),
      (analyze_maintenance_needs car history nowDays).recommendations.Pairwise
        (fun a b => b.priority ≤ a.priority))
    ∧ (∀ (car : Car) (history : List MaintenanceRecord) (nowDays : Int) (p : Int),
      (analyze_maintenance_needs car history nowDays).recommendations.filter
          (fun rec => rec.priority == p)
        = (maintenance_intervals.filterMap
            (fun item => check_service car history nowDays item.1 item.2)).filter
          (fun rec => rec.priority == p))
    ∧ ([flaggedA, flaggedB, flaggedC].mergeSort
        (fun a b => b.priority ≤ a.priority)) = [flaggedA, flaggedB, flaggedC]
    ∧ (analyze_maintenance_needs exampleCar [] 0).recommendations.map
        Recommendation.service_type
      = ["oil_change", "brake_inspection", "transmission_service",
         "tire_rotation", "air_filter"] := by
  refine ⟨?_, ?_, ?_, ?_⟩
  · intro car history nowDays
    simp only [analyze_maintenance_needs]
    have h := @List.sorted_mergeSort Recommendation
      (fun a b => decide (b.priority ≤ a.priority))
      (fun a b c => recommendation_le_trans a b c)
      recommendation_le_total
      (maintenance_intervals.filterMap
        (fun item => check_service car history nowDays item.1 item.2))
    exact h.imp (fun hab => of_decide_eq_true hab)
  · intro car history nowDays p
    simpa only [analyze_maintenance_needs] using
      mergeSort_filter_priority
        (maintenance_intervals.filterMap
          (fun item => check_service car history nowDays item.1 item.2)) p
  · refine List.mergeSort_of_sorted ?_
    refine List.pairwise_cons.mpr ⟨?_, List.pairwise_cons.mpr ⟨?_, ?_⟩⟩
    · intro b hb
      rcases List.mem_cons.mp hb with h | h
      · rw [h]; simp [flaggedA, flaggedB]
      · rw [List.mem_singleton.mp h]; simp [flaggedA, flaggedC]
    · intro b hb
      rw [List.mem_singleton.mp hb]; simp [flaggedB, flaggedC]
    · exact List.pairwise_singleton _ _
  · rfl

/-- A rules catalog whose oil-change entry defines no
`time_interval_months`: a mileage-only catalog entry. -/
def mileageOnlyRules : String → Option Rules := fun service_type =>
  if service_type = "oil_change" then
    some { mileage_interval := some 5000, time_interval_months := none,
           priority := some 10, safety_critical := some true }
  else none

/-- A car that has not moved since its last oil change, for the
mileage-only counterexample. -/
def steadyCar : Car :=
  { id := 3, user_id := 1, make := "Ford", model := "Focus", year := 2021,
    current_mileage := 10000 }

/-- C5 counterexample: with a catalog entry whose `time_interval_months` is
undefined, zero miles driven since the last service (so the mileage
thresholds are nowhere near triggered), and 390 days elapsed, the evaluator
still reports `overdue` — `rules.get("time_interval_months", 12)` silently
substitutes a 12-month interval — and returns `overdue_months = 1`, not 0. -/
theorem time_triggers_despite_no_time_interval :
    (calculate_service_status mileageOnlyRules steadyCar (some exampleOilRecord)
        ("oil_change") 390).status = "overdue"
    ∧ (calculate_service_status mileageOnlyRules steadyCar (some exampleOilRecord)
        ("oil_change") 390).overdue_months = some 1
    ∧ (calculate_service_status mileageOnlyRules steadyCar (some exampleOilRecord)
        ("oil_change") 390).miles_since = some 0 := by
  refine ⟨?_, ?_, ?_⟩ <;>
    norm_num [calculate_service_status, mileageOnlyRules, getRule, steadyCar,
      exampleOilRecord]

/-- A tire-rotation record, for the time-interval-free branch of
`analyze_maintenance_needs`. -/
def tireRecord : MaintenanceRecord :=
  { id := 3, service_type := "tire_rotation", date_performed := 0,
    mileage_at_service := 4000, cost := 25 }

/-- C5 amended: in the autonomous evaluator a catalog entry without
`time_interval_months` behaves exactly as if the entry carried the default
12-month interval (so elapsed time can still trigger `due_soon`/`overdue`
and `overdue_months = max(0, months_since - 12)`); in
`MaintenanceAgent.analyze_maintenance_needs`, by contrast, a service type
absent from `time_intervals` is flagged purely by mileage: with a last
service present it is recommended iff `miles_since ≥ mile_interval`. -/
theorem missing_time_interval_behavior :
    (∀ (rulesMap : String → Option Rules) (car : Car) (last : MaintenanceRecord)
        (st : String) (nowDays : Int) (r : Rules),
      rulesMap st = some r → r.time_interval_months = none →
      calculate_service_status rulesMap car (some last) st nowDays
        = calculate_service_status
            (fun s => if s = st then some { r with time_interval_months := some 12 }
                      else rulesMap s) car (some last) st nowDays)
    ∧ (∀ (car : Car) (history : List MaintenanceRecord) (nowDays : Int)
        (st : String) (mi : Int) (r : MaintenanceRecord),
      time_intervals.lookup st = none →
      get_last_service history st = some r →
      ((check_service car history nowDays st mi).isSome
        ↔ mi ≤ car.current_mileage - r.mileage_at_service)) := by
  constructor
  · intro rulesMap car last st nowDays r h1 h2
    obtain ⟨miv, tiv, pv, sv⟩ := r
    simp only [Rules.time_interval_months] at h2
    subst h2
    simp [calculate_service_status, getRule, h1]
  · intro car history nowDays st mi r hti hlast
    simp only [check_service, hlast, hti]
    split_ifs with h
    · simpa using h
    · simp only [ge_iff_le, not_le] at h
      simp [Option.isSome]
      omega

/-- Witness for `missing_time_interval_behavior` at concrete inputs: the
mileage-only oil-change entry behaves as with a 12-month interval, and a
tire rotation (no time interval) with a record present is flagged iff the
mile interval is reached. -/
theorem missing_time_interval_behavior_witness :
    (calculate_service_status mileageOnlyRules steadyCar (some exampleOilRecord)
        ("oil_change") 390
      = calculate_service_status
          (fun s => if s = "oil_change" then
              some { mileage_interval := some 5000, time_interval_months := some 12,
                     priority := some 10, safety_critical := some true }
            else mileageOnlyRules s) steadyCar (some exampleOilRecord)
          ("oil_change") 390)
    ∧ ((check_service steadyCar [tireRecord] 0 "tire_rotation" 7500).isSome
        ↔ (7500 : Int) ≤ steadyCar.current_mileage - tireRecord.mileage_at_service) :=
  ⟨missing_time_interval_behavior.1 mileageOnlyRules steadyCar exampleOilRecord
      ("oil_change") 390
      { mileage_interval := some 5000, time_interval_months := none,
        priority := some 10, safety_critical := some true } rfl rfl,
   missing_time_interval_behavior.2 steadyCar [tireRecord] 0 "tire_rotation" 7500
      tireRecord rfl rfl⟩

/-- A user row (backend/app/models/user.py, class `User`); only the fields
read by `autonomous_daily_check` are kept. -/
structure User where
  id : Int
  cars : List Car
deriving Repr, DecidableEq

/-- Embedding of `AutonomousMaintenanceAgent._analyze_user_cars`: the car
loop has no per-car exception handler, so an exception while analyzing one
car aborts the remaining cars of that user.  The awaited external calls
made for one car (context building, recommendation generation, action
planning, action execution) are abstracted by `fails`: `fails car = true`
means analyzing `car` raises.  The result is the list of ids of the cars
fully processed, paired with whether an exception escaped the loop. -/
def analyze_user_cars (fails : Car → Bool) : List Car → List Int × Bool
  | [] => ([], false)
  | car :: rest =>
      if fails car then ([], true)
      else
        let r := analyze_user_cars fails rest
        (car.id :: r.1, r.2)

/-- Embedding of `AutonomousMaintenanceAgent.autonomous_daily_check`: the
loop over active users wraps each `_analyze_user_cars` call in
`try/except`, catching and logging any exception, so the loop always
continues to the next user and the batch always completes.  Each user's
entry records that user's processed car ids and whether the analysis
raised. -/
def autonomous_daily_check (fails : Car → Bool) (active_users : List User) :
    List (Int × (List Int × Bool)) :=
  active_users.map (fun user => (user.id, analyze_user_cars fails user.cars))

/-- Concrete car A (fails during analysis in the example). -/
def carA : Car :=
  { id := 11, user_id := 1, make := "Honda", model := "Fit", year := 2018,
    current_mileage := 42000 }

/-- Concrete car B (same owner as car A). -/
def carB : Car :=
  { id := 12, user_id := 1, make := "Mazda", model := "3", year := 2017,
    current_mileage := 51000 }

/-- Concrete car C (different owner). -/
def carC : Car :=
  { id := 13, user_id := 2, make := "Subaru", model := "Outback", year := 2020,
    current_mileage := 22000 }

/-- C9 counterexample: an exception while analyzing car A (id 11) is only
caught at the per-user level, so car B — owned by the same user, and whose
own analysis would not fail — is never processed; the second user's car is
processed and the batch completes. -/
theorem failure_skips_same_users_remaining_cars :
    autonomous_daily_check (fun car => car.id == 11)
        [{ id := 1, cars := [carA, carB] }, { id := 2, cars := [carC] }]
      = [(1, ([], true)), (2, ([13], false))]
    ∧ (fun car : Car => car.id == 11) carB = false := by
  constructor
  · decide
  · decide

/-- C9 amended: failures are isolated per user, not per car: the daily
check always completes with exactly one entry per user in order; the
result for a block of users is unaffected by the users around it (so one
user's failure never blocks another user's processing); within one user an
exception aborts that user's remaining cars, while a user none of whose
cars fail has all of them processed in order. -/
theorem daily_check_isolates_failures_per_user :
    (∀ (fails : Car → Bool) (users : List User),
      (autonomous_daily_check fails users).map Prod.fst = users.map User.id)
    ∧ (∀ (fails : Car → Bool) (us vs : List User),
      autonomous_daily_check fails (us ++ vs)
        = autonomous_daily_check fails us ++ autonomous_daily_check fails vs)
    ∧ (∀ (fails : Car → Bool) (car : Car) (rest : List Car),
      fails car = true → analyze_user_cars fails (car :: rest) = ([], true))
    ∧ (∀ (fails : Car → Bool) (cars : List Car),
      (∀ car ∈ cars, fails car = false) →
      analyze_user_cars fails cars = (cars.map Car.id, false)) := by
  refine ⟨?_, ?_, ?_, ?_⟩
  · intro fails users
    simp [autonomous_daily_check, List.map_map, Function.comp]
  · intro fails us vs
    simp [autonomous_daily_check]
  · intro fails car rest h
    simp [analyze_user_cars, h]
  · intro fails cars h
    induction cars with
    | nil => rfl
    | cons car rest ih =>
      have hcar := h car (List.mem_cons_self _ _)
      have hrest := ih (fun c hc => h c (List.mem_cons_of_mem _ hc))
      simp [analyze_user_cars, hcar, hrest]

/-- Witness for `daily_check_isolates_failures_per_user` at concrete
inputs: a failing first car empties its user's processed list, and a
failure-free car list is processed in full. -/
theorem daily_check_isolates_failures_per_user_witness :
    analyze_user_cars (fun car => car.id == 11) [carA, carB] = ([], true)
    ∧ analyze_user_cars (fun car => car.id == 11) [carC] = ([13], false) := by
  constructor
  · exact daily_check_isolates_failures_per_user.2.2.1
      (fun car => car.id == 11) carA [carB] (by decide)
  · have h := daily_check_isolates_failures_per_user.2.2.2
      (fun car => car.id == 11) [carC] (by decide)
    simpa [carC] using h

/-- Witness for `overdue_magnitudes_clamped`: at the concrete 15500-mile
input the returned overdue miles are 500, and the clamping conjunct applied
there yields non-negativity. -/
theorem overdue_magnitudes_clamped_witness :
    (calculate_service_status maintenance_rules exampleCar15500
        (some exampleOilRecord) "oil_change" 0).overdue_miles = some 500
    ∧ (0 : Int) ≤ 500 :=
  ⟨(overdue_magnitudes_clamped maintenance_rules exampleCar15500 exampleOilRecord
      ("oil_change") 0).2.2.2.2,
   (overdue_magnitudes_clamped maintenance_rules exampleCar15500 exampleOilRecord
      ("oil_change") 0).2.2.1 500
     ((overdue_magnitudes_clamped maintenance_rules exampleCar15500 exampleOilRecord
      ("oil_change") 0).2.2.2.2)⟩
